import Mathlib

/-!
# Verification of the workflow-healer telemetry and monetization pipeline

Shallow embedding of `backend/app/utils/metrics_logger.py` (class
`MetricsLogger`) and `backend/app/integrations/paywalls_client.py`.

Modelling conventions:
* A CSV file is a list of records, each record a list of cell values
  (`Rec`).  The empty list `[]` stands for an absent or empty file
  (the constructor creates empty files, and `_ensure_file_integrity`
  treats absent and size-0 files identically).
* Python dict rows are association lists `List (String × Value)` with
  insertion-order semantics: assignment replaces in place, `setdefault`
  appends at the end.
* Cell values are `Value.str` (Python `str`) or `Value.num` (Python
  numbers, modelled as exact rationals `ℚ`).
* Timestamps are opaque strings supplied as parameters (`datetime.now`
  renders one); the flowxo dedup cache additionally keeps the current
  time as a rational number of seconds.
* I/O failure of the metrics append is an explicit boolean parameter
  (`ioFail`); the recovery writes themselves are modelled as succeeding.
* Python `round(x, p)` on these inputs is modelled as exact rational
  half-up rounding to `p` decimals.  (CPython rounds the *double* to
  even, but the doubles produced here do not land exactly on decimal
  ties — e.g. `0.05*1.925` is the double `0.09625000000000000222…`,
  strictly above the tie, so CPython yields `0.0963`, which half-up on
  the exact rational reproduces.)
-/

namespace Healer

/-- A Python value stored in a row cell: a string or a number
(numbers modelled as exact rationals). -/
inductive Value where
  | str (s : String)
  | num (q : ℚ)
  deriving DecidableEq, Repr

/-- One CSV record (one line of the metrics file, already split into
cells). -/
abbrev Rec := List Value

/-- `MetricsLogger.headers`: the canonical 8-column schema
`["ts","workflow","anomaly","action","status","latency_ms","recovery_pct","reward"]`. -/
def headers : List String :=
  ["ts", "workflow", "anomaly", "action",
   "status", "latency_ms", "recovery_pct", "reward"]

/-- The canonical header line as a record of string cells. -/
def headerRec : Rec := headers.map Value.str

/-- Association-list lookup (Python `dict[k]` / `k in dict`). -/
def alookup (l : List (String × α)) (k : String) : Option α :=
  match l with
  | [] => none
  | (k', v) :: rest => if k' = k then some v else alookup rest k

/-- Python dict assignment `d[k] = v`: replace in place if present,
else append (insertion order). -/
def aset (l : List (String × α)) (k : String) (v : α) : List (String × α) :=
  match l with
  | [] => [(k, v)]
  | (k', v') :: rest =>
      if k' = k then (k, v) :: rest else (k', v') :: aset rest k v

/-- Python `dict.setdefault(k, v)`: insert `(k, v)` at the end only if
`k` is absent. -/
def asetdefault (l : List (String × α)) (k : String) (v : α) :
    List (String × α) :=
  match alookup l k with
  | some _ => l
  | none => l ++ [(k, v)]

/-- Pad a record on the right with empty-string cells up to width `w`
(pandas fills missing trailing cells with NaN, which `to_csv` writes
back as empty). -/
def padTo (w : Nat) (r : Rec) : Rec :=
  r ++ List.replicate (w - r.length) (Value.str "")

/-- `pd.read_csv(path, header=None)` on a non-empty file: the first
record fixes the column count `w`; a later record wider than `w` is a
parse error (`ParserError`), narrower records are NaN-padded.  Returns
`none` on parse failure. -/
def parseHeaderless (f : List Rec) : Option (List Rec) :=
  match f with
  | [] => none
  | r :: _ =>
      if f.all (fun row => row.length ≤ r.length) then
        some (f.map (padTo r.length))
      else none

/-- `MetricsLogger._create_new_file`: the metrics file holding only the
canonical header. -/
def createNewFile : List Rec := [headerRec]

/-- `MetricsLogger._ensure_file_integrity`.
* absent/empty file → `_create_new_file` (header only);
* first record equal to the canonical header → untouched;
* otherwise: re-read everything headerlessly (`pd.read_csv(header=None)`,
  the corrupt first record included) and rewrite with
  `df.to_csv(header=self.headers)`.  A parse failure, or a column count
  different from 8 (which makes `to_csv` raise
  `ValueError: Writing n cols but got 8 aliases`), lands in the
  `except` branch and recreates the file with the header only. -/
def ensureFileIntegrity (f : List Rec) : List Rec :=
  match f with
  | [] => createNewFile
  | r :: _ =>
      if r = headerRec then f
      else
        match parseHeaderless f with
        | none => createNewFile
        | some rows =>
            if r.length = headers.length then headerRec :: rows
            else createNewFile

/-- Exact half-up rounding to `p` decimal places, the model of Python
`round(x, p)` on the values arising here (see the header comment). -/
def pyRound (x : ℚ) (p : Nat) : ℚ :=
  (⌊x * 10 ^ p + 1 / 2⌋ : ℚ) / 10 ^ p

/-- One line of the recovery-priced revenue ledger
(`data/healing_revenue.log` as written by `MetricsLogger.log_revenue`):
`"{timestamp} | {workflow} | {anomaly} | ${cost:.4f} | {status}"`. -/
structure RevEntry where
  ts : String
  workflow : Value
  anomaly : Value
  amount : ℚ
  status : String
  deriving DecidableEq, Repr

/-- `MetricsLogger.log_revenue` base price: `$0.05` per healing. -/
def basePrice : ℚ := 5 / 100

/-- The entry `MetricsLogger.log_revenue` appends:
`cost = round(base_price * (1 + recovery_pct/100), 4)`,
`status = "success" if success else "partial"`. -/
def mkRevEntry (ts : String) (workflow anomaly : Value) (recoveryPct : ℚ)
    (success : Bool) : RevEntry :=
  { ts := ts
    workflow := workflow
    anomaly := anomaly
    amount := pyRound (basePrice * (1 + recoveryPct / 100)) 4
    status := if success then "success" else "partial" }

/-- One line of `data/flowxo_events.log`:
`"{timestamp} | {workflow} | {anomaly} | {user_id}"`. -/
structure FlowEntry where
  ts : String
  workflow : String
  anomaly : String
  userId : String
  deriving DecidableEq, Repr

/-- The mutable state of a `MetricsLogger` instance: the metrics CSV,
the two append-only text logs (kept structured), and the in-memory
flowxo dedup cache `_last_flowxo` (key ↦ last admitted time, seconds). -/
structure LoggerState where
  metrics : List Rec
  revenue : List RevEntry
  flowxo : List FlowEntry
  lastFlowxo : List (String × ℚ)
  deriving DecidableEq, Repr

/-- A logger over fresh (empty) log files. -/
def initState : LoggerState :=
  { metrics := createNewFile, revenue := [], flowxo := [], lastFlowxo := [] }

/-- An incoming row: a Python dict. -/
abbrev Row := List (String × Value)

/-- The default-filling phase of `MetricsLogger.log`: stamp
`row["ts"]` with the current UTC timestamp, then `setdefault` each
documented default. -/
def prepRow (row : Row) (nowTs : String) : Row :=
  let r := aset row "ts" (Value.str nowTs)
  let r := asetdefault r "workflow" (Value.str "unknown")
  let r := asetdefault r "anomaly" (Value.str "unspecified")
  let r := asetdefault r "action" (Value.str "none")
  let r := asetdefault r "status" (Value.str "unknown")
  let r := asetdefault r "latency_ms" (Value.num 0)
  let r := asetdefault r "recovery_pct" (Value.num 0)
  asetdefault r "reward" (Value.num 0)

/-- `csv.DictWriter(f, fieldnames=headers).writerow(row)` raises
`ValueError` when the dict holds a key outside `fieldnames`
(`extrasaction="raise"`, the default); this predicate says the write
goes through. -/
def rowKeysOk (row : Row) : Bool :=
  row.all (fun kv => headers.contains kv.1)

/-- The record `DictWriter.writerow` emits: the row's values in header
order (a missing key would be written as the empty `restval`). -/
def recOf (row : Row) : Rec :=
  headers.map (fun h => (alookup row h).getD (Value.str ""))

/-- `MetricsLogger.log`.  Sequence: `_ensure_file_integrity`; stamp
`ts` and fill defaults; under the lock append the row
(`DictWriter.writerow`); on success call `log_revenue` once.  Any
exception of the append (modelled: an injected I/O failure `ioFail`, or
the `ValueError` for a key outside `headers`) is caught and answered by
`_create_new_file`.  `log_revenue` runs inside its own
`try/except` and never raises: with a non-numeric `recovery_pct` the
expression `recovery_pct / 100` raises `TypeError`, which that handler
swallows, so no revenue line is written in that case. -/
def logStep (row : Row) (ioFail : Bool) (nowTs : String)
    (st : LoggerState) : LoggerState :=
  let m := ensureFileIntegrity st.metrics
  let row1 := prepRow row nowTs
  if ioFail || !rowKeysOk row1 then
    { st with metrics := createNewFile }
  else
    let m2 := m ++ [recOf row1]
    let wf := (alookup row1 "workflow").getD (Value.str "")
    let an := (alookup row1 "anomaly").getD (Value.str "")
    let succ : Bool := alookup row1 "status" = some (Value.str "success")
    match alookup row1 "recovery_pct" with
    | some (Value.num q) =>
        { st with
            metrics := m2
            revenue := st.revenue ++ [mkRevEntry nowTs wf an q succ] }
    | _ => { st with metrics := m2 }

/-- The dedup key of `MetricsLogger.log_flowxo_event`:
`f"{workflow}_{anomaly}_{user_id}"`. -/
def flowxoKey (workflow anomaly userId : String) : String :=
  workflow ++ "_" ++ anomaly ++ "_" ++ userId

/-- The admitting path of `MetricsLogger.log_flowxo_event`:
`self._last_flowxo[key] = now` followed by the append of one line. -/
def flowxoAdmit (workflow anomaly userId : String) (now : ℚ)
    (nowTs : String) (st : LoggerState) : LoggerState :=
  { st with
      lastFlowxo := aset st.lastFlowxo (flowxoKey workflow anomaly userId) now
      flowxo := st.flowxo ++
        [{ ts := nowTs, workflow := workflow, anomaly := anomaly,
           userId := userId }] }

/-- `MetricsLogger.log_flowxo_event`: suppress when the key was seen
and `(now - last).total_seconds() < 2`; otherwise record `now` for the
key and append one line.  A suppressed call returns before touching
either the cache or the file. -/
def logFlowxoEvent (workflow anomaly userId : String) (now : ℚ)
    (nowTs : String) (st : LoggerState) : LoggerState :=
  match alookup st.lastFlowxo (flowxoKey workflow anomaly userId) with
  | some t =>
      if now - t < 2 then st
      else flowxoAdmit workflow anomaly userId now nowTs st
  | none => flowxoAdmit workflow anomaly userId now nowTs st

/-! ## Reading the flat revenue log (`_compute_total_revenue`) -/

/-- The whitespace characters Python `str.strip()` removes (the ones
occurring in these logs). -/
def isPySpace (c : Char) : Bool :=
  c = ' ' || c = '\t' || c = '\n' || c = '\r'

/-- Python `str.strip()`. -/
def pyStrip (cs : List Char) : List Char :=
  ((cs.dropWhile isPySpace).reverse.dropWhile isPySpace).reverse

/-- Python `str.split(sep)` for a one-character separator. -/
def splitOnChar (sep : Char) : List Char → List (List Char)
  | [] => [[]]
  | c :: cs =>
      let r := splitOnChar sep cs
      if c = sep then [] :: r
      else
        match r with
        | g :: gs => (c :: g) :: gs
        | [] => [[c]]

/-- Fold a digit list into a natural number. -/
def digitsVal (cs : List Char) : Nat :=
  cs.foldl (fun acc c => 10 * acc + (c.toNat - '0'.toNat)) 0

/-- A non-empty all-digit chunk. -/
def allDigits (cs : List Char) : Bool :=
  !cs.isEmpty && cs.all Char.isDigit

/-- Python `float(s)` on the plain decimal fragment these logs contain:
optional sign, then `ddd`, `ddd.ddd`, `ddd.` or `.ddd`.  (CPython's
`float` also accepts exponents, `inf`/`nan` and underscores; those
never appear in amounts written as `f"${cost:.4f}"` and are outside the
modelled fragment.)  Returns `none` where `float` raises `ValueError`. -/
def parseUnsigned (cs : List Char) : Option ℚ :=
  match splitOnChar '.' cs with
  | [i] => if allDigits i then some (digitsVal i : ℚ) else none
  | [i, f] =>
      if (i.all Char.isDigit && f.all Char.isDigit) &&
          (!i.isEmpty || !f.isEmpty) then
        some ((digitsVal i : ℚ) + (digitsVal f : ℚ) / 10 ^ f.length)
      else none
  | _ => none

/-- Python `float(s)` (sign handling on top of `parseUnsigned`). -/
def pyFloat (cs : List Char) : Option ℚ :=
  match cs with
  | '-' :: rest => (parseUnsigned rest).map (fun q => -q)
  | '+' :: rest => parseUnsigned rest
  | _ => parseUnsigned cs

/-- The amount one line of the flat revenue log contributes in
`_compute_total_revenue`: split the stripped line on `"|"`; if it has
at least 4 parts, `float(parts[3].replace("$", "").strip())`; a short
line or a `float` failure contributes nothing (`continue`). -/
def lineAmount (line : String) : Option ℚ :=
  let parts := splitOnChar '|' (pyStrip line.data)
  if h : 3 < parts.length then
    pyFloat (pyStrip ((parts.get ⟨3, h⟩).filter (fun c => c ≠ '$')))
  else none

/-- `MetricsLogger._compute_total_revenue`: fold the per-line amounts
into `total` (starting at `0.0`) and return `round(total, 3)`. -/
def computeTotalRevenue (lines : List String) : ℚ :=
  pyRound
    (lines.foldl
      (fun total line =>
        match lineAmount line with
        | some q => total + q
        | none => total)
      0) 3

/-! ## `MetricsLogger.summary` -/

/-- The dashboard summary record. -/
structure SummaryStats where
  avg_queue_minutes : ℚ
  avg_recovery_pct : ℚ
  avg_reward : ℚ
  healings : Nat
  total_revenue : ℚ
  deriving DecidableEq, Repr

/-- `MetricsLogger._empty_summary`: the zero-valued fallback. -/
def emptySummary : SummaryStats :=
  { avg_queue_minutes := 0, avg_recovery_pct := 0, avg_reward := 0,
    healings := 0, total_revenue := 0 }

/-- A cell pandas reads as NaN (an empty cell), dropped by
`df.dropna(subset=...)`. -/
def isNa (v : Value) : Bool :=
  v = Value.str ""

/-- `pd.to_numeric(col, errors="coerce").fillna(0)` on one cell:
numbers stay, numeric strings are coerced, anything else becomes 0. -/
def cellQ (v : Value) : ℚ :=
  match v with
  | Value.num q => q
  | Value.str s => (pyFloat (pyStrip s.data)).getD 0

/-- Arithmetic mean of a list of rationals.  (`pandas` returns NaN on
an empty column; no claim depends on that case, modelled as 0.) -/
def qmean (xs : List ℚ) : ℚ :=
  if xs.isEmpty then 0 else xs.sum / xs.length

/-- Cell `i` of a data row, as the 8-column frame exposes it. -/
def cellAt (r : Rec) (i : Nat) : Value :=
  (r.getD i (Value.str ""))

/-- `pd.read_csv(path)` (header-ful read) applied to the data records
below the header line.  The first data record fixes the expected field
count `w`; a later record wider than `w` is a `ParserError`, narrower
records are NaN-padded.  When `w` exceeds the number of column names,
the leading `w - 8` data columns become the (implicit) row index —
pandas' documented index-column inference — so the named columns read
their cells at offset `w - 8`; when `w` is below 8 the names align
left and the trailing columns are NaN.  Returns the offset of the
named columns and the padded data rows, or `none` on a parse error. -/
def readWithHeader (data : List Rec) : Option (Nat × List Rec) :=
  match data with
  | [] => some (0, [])
  | d :: _ =>
      if data.all (fun row => row.length ≤ d.length) then
        some (d.length - headers.length,
          data.map (padTo (max d.length headers.length)))
      else none

/-- `MetricsLogger.summary`: after `_ensure_file_integrity` (whose
result always starts with the canonical header line), read the CSV
with its header (`readWithHeader` over the data records), return
`_empty_summary` when the frame is empty or the read raises; otherwise
drop rows whose `latency_ms`/`recovery_pct`/`reward` cell is NaN,
coerce those columns numerically, and emit the rounded means, the row
count and `_compute_total_revenue` over the flat revenue log. -/
def summaryOf (metrics : List Rec) (revLines : List String) :
    SummaryStats :=
  let m := ensureFileIntegrity metrics
  match readWithHeader m.tail with
  | none => emptySummary
  | some (shift, rows) =>
      if rows.isEmpty then emptySummary
      else
        let kept := rows.filter (fun r =>
          !isNa (cellAt r (shift + 5)) && !isNa (cellAt r (shift + 6)) &&
            !isNa (cellAt r (shift + 7)))
        { avg_queue_minutes :=
            pyRound
              (qmean (kept.map (fun r => cellQ (cellAt r (shift + 5)) / 60000)))
              2
          avg_recovery_pct :=
            pyRound (qmean (kept.map (fun r => cellQ (cellAt r (shift + 6))))) 2
          avg_reward :=
            pyRound (qmean (kept.map (fun r => cellQ (cellAt r (shift + 7))))) 2
          healings := kept.length
          total_revenue := computeTotalRevenue revLines }

/-! ## `paywalls_client.py` -/

/-- Outcome of the `requests.post` call to the Paywalls API: an HTTP
response (status code and decoded JSON payload) or a raised transport
exception. -/
inductive RemoteOutcome where
  | response (code : Nat) (body : String)
  | exc (msg : String)
  deriving DecidableEq, Repr

/-- One line of `data/healing_revenue.log` as this client writes it:
`_log_local_simulation` emits 5 fields (no mode),
`_log_billing_event` emits 6 (`mode` last). -/
structure BillLine where
  ts : String
  user : String
  healType : String
  cost : ℚ
  status : String
  mode : Option String
  deriving DecidableEq, Repr

/-- The dict `bill_healing_event` returns, with one optional field per
key any branch may set. -/
structure BillResult where
  status : String
  mode : Option String
  code : Option Nat
  error : Option String
  response : Option String
  timestamp : Option String
  user : Option String
  healType : Option String
  amount : Option ℚ
  deriving DecidableEq, Repr

/-- A `BillResult` with every optional key absent. -/
def baseResult (status : String) : BillResult :=
  { status := status, mode := none, code := none, error := none,
    response := none, timestamp := none, user := none, healType := none,
    amount := none }

/-- `PAYWALLS_KEY = os.getenv("PAYWALLS_API_KEY") or os.getenv("PAYWALLS_KEY")`;
`if not PAYWALLS_KEY` is taken when the variable is unset or empty. -/
def hasKey (key : Option String) : Bool :=
  match key with
  | none => false
  | some s => !(s = "")

/-- `bill_healing_event(user_id, heal_type, cost)`.  Tier 1: no
credential → `_log_local_simulation` (append a 5-field `simulated`
line, return the local record).  Tier 2/3, with the remote outcome as
a parameter: HTTP 200/201 → `success`/`real`; other status codes →
`fallback`/`real-failed` line, `fallback_logged` result; a raised
exception → `exception`/`fallback` line, `failed` result.  The whole
remote branch sits in `try/except`, so the function never raises. -/
def billHealingEvent (key : Option String) (remote : RemoteOutcome)
    (userId healType : String) (cost : ℚ) (ts : String)
    (log : List BillLine) : BillResult × List BillLine :=
  if !hasKey key then
    ({ baseResult "simulated" with
        mode := some "local", timestamp := some ts, user := some userId,
        healType := some healType, amount := some cost },
     log ++ [{ ts := ts, user := userId, healType := healType,
               cost := cost, status := "simulated", mode := none }])
  else
    match remote with
    | RemoteOutcome.response code body =>
        if code = 200 || code = 201 then
          ({ baseResult "success" with
              mode := some "real", response := some body },
           log ++ [{ ts := ts, user := userId, healType := healType,
                     cost := cost, status := "success",
                     mode := some "real" }])
        else
          ({ baseResult "fallback_logged" with code := some code },
           log ++ [{ ts := ts, user := userId, healType := healType,
                     cost := cost, status := "fallback",
                     mode := some "real-failed" }])
    | RemoteOutcome.exc msg =>
        ({ baseResult "failed" with
            error := some msg, mode := some "fallback" },
         log ++ [{ ts := ts, user := userId, healType := healType,
                   cost := cost, status := "exception",
                   mode := some "fallback" }])

/-- How a read of the flat revenue log ends: the file is missing, the
read raises, or it yields the file's lines. -/
inductive ReadOutcome where
  | missing
  | ioError
  | ok (lines : List String)
  deriving DecidableEq, Repr

/-- `read_billing_history(limit)`: `[]` when the file is missing or the
read raises; otherwise `lines[-limit:]`, each stripped, empty lines
dropped.  (Python `lines[-0:]` is all lines, hence the `limit = 0`
case.) -/
def readBillingHistory (r : ReadOutcome) (limit : Nat) : List String :=
  match r with
  | ReadOutcome.missing => []
  | ReadOutcome.ioError => []
  | ReadOutcome.ok lines =>
      let recent := if limit = 0 then lines
        else lines.drop (lines.length - limit)
      (recent.map (fun l => String.mk (pyStrip l.data))).filter
        (fun l => !(l = ""))

/-- Spec-side definition, for comparison with `computeTotalRevenue`
(claim C8): "the sum of the dollar amounts parsed from the log's
lines", with no final rounding. -/
def claimedTotalRevenue (lines : List String) : ℚ :=
  (lines.filterMap lineAmount).sum

/-! ## Helper lemmas -/

/-- Evaluation rule for `pyRound`: if `n` is the integer with
`n ≤ x·10^p + 1/2 < n + 1` then `pyRound x p = n / 10^p`. -/
theorem pyRound_eval {x : ℚ} {p : Nat} {n : ℤ}
    (h1 : (n : ℚ) ≤ x * 10 ^ p + 1 / 2)
    (h2 : x * 10 ^ p + 1 / 2 < (n : ℚ) + 1) :
    pyRound x p = (n : ℚ) / 10 ^ p := by
  unfold pyRound
  rw [Int.floor_eq_iff.mpr ⟨h1, h2⟩]

/-- Looking up the key just assigned by `aset` yields the new value. -/
theorem alookup_aset_self (l : List (String × α)) (k : String) (v : α) :
    alookup (aset l k v) k = some v := by
  induction l with
  | nil => simp [aset, alookup]
  | cons hd tl ih =>
      by_cases h : hd.1 = k
      · simp [aset, alookup, h]
      · simp only [aset]
        rw [if_neg h]
        simp only [alookup]
        rw [if_neg h]
        exact ih

/-- `aset` with a different key preserves membership of a pair. -/
theorem mem_aset_of_ne {l : List (String × α)} {k : String} {v : α}
    (k' : String) (v' : α) (hm : (k, v) ∈ l) (hne : k ≠ k') :
    (k, v) ∈ aset l k' v' := by
  induction l with
  | nil => cases hm
  | cons hd tl ih =>
      rcases List.mem_cons.mp hm with h | h
      · subst h
        simp only [aset]
        rw [if_neg (fun hh => hne hh)]
        exact List.mem_cons_self _ _
      · by_cases hh : hd.1 = k'
        · simp only [aset]
          rw [if_pos hh]
          exact List.mem_cons_of_mem _ h
        · simp only [aset]
          rw [if_neg hh]
          exact List.mem_cons_of_mem _ (ih h)

/-- `asetdefault` preserves membership of a pair. -/
theorem mem_asetdefault {l : List (String × α)} {k : String} {v : α}
    (k' : String) (v' : α) (hm : (k, v) ∈ l) :
    (k, v) ∈ asetdefault l k' v' := by
  unfold asetdefault
  cases alookup l k' with
  | some _ => exact hm
  | none => exact List.mem_append_left _ hm

/-- A pair whose key lies outside the schema survives `prepRow`. -/
theorem mem_prepRow {row : Row} {k : String} {v : Value}
    (hm : (k, v) ∈ row) (hk : k ≠ "ts") (nowTs : String) :
    (k, v) ∈ prepRow row nowTs := by
  unfold prepRow
  exact mem_asetdefault _ _ (mem_asetdefault _ _ (mem_asetdefault _ _
    (mem_asetdefault _ _ (mem_asetdefault _ _ (mem_asetdefault _ _
      (mem_asetdefault _ _ (mem_aset_of_ne _ _ hm hk)))))))

/-- A row holding a key outside the schema fails `rowKeysOk`. -/
theorem rowKeysOk_eq_false {row : Row} {k : String} {v : Value}
    (hm : (k, v) ∈ row) (hk : headers.contains k = false) :
    rowKeysOk row = false := by
  unfold rowKeysOk
  by_contra h
  have hall := List.all_eq_true.mp (eq_true_of_ne_false h) _ hm
  rw [hk] at hall
  cases hall

/-- The revenue fold of `_compute_total_revenue` computes the sum of
the parseable per-line amounts. -/
theorem revenue_foldl_eq (lines : List String) (init : ℚ) :
    lines.foldl
      (fun total line =>
        match lineAmount line with
        | some q => total + q
        | none => total)
      init = init + (lines.filterMap lineAmount).sum := by
  induction lines generalizing init with
  | nil => simp
  | cons hd tl ih =>
      simp only [List.foldl_cons, List.filterMap_cons]
      cases h : lineAmount hd with
      | none => simpa [h] using ih init
      | some q =>
          rw [ih (init + q)]
          simp [h, add_assoc]

/-! ## Claims -/

/-- C1: a `MetricsLogger.log` call whose row write succeeds (no I/O
failure, no key outside the schema, and a numeric `recovery_pct` as a
`HealingEvent` carries) appends exactly one row to the metrics file and,
synchronously within the same call, exactly one recovery-priced entry to
the revenue ledger — never zero, never more than one. -/
theorem C1_log_exactly_one_revenue (row : Row) (nowTs : String)
    (st : LoggerState) (q : ℚ)
    (hkeys : rowKeysOk (prepRow row nowTs) = true)
    (hpct : alookup (prepRow row nowTs) "recovery_pct" =
      some (Value.num q)) :
    (logStep row false nowTs st).revenue =
      st.revenue ++
        [mkRevEntry nowTs
          ((alookup (prepRow row nowTs) "workflow").getD (Value.str ""))
          ((alookup (prepRow row nowTs) "anomaly").getD (Value.str ""))
          q
          (decide (alookup (prepRow row nowTs) "status" =
            some (Value.str "success")))] ∧
    (logStep row false nowTs st).metrics =
      ensureFileIntegrity st.metrics ++ [recOf (prepRow row nowTs)] := by
  simp only [logStep, hkeys, hpct, Bool.not_true, Bool.or_false,
    Bool.false_or, if_false, ite_false]
  exact ⟨rfl, rfl⟩

/-- C1 witness: a concrete successful append produces exactly one
revenue line. -/
theorem C1_witness :
    (logStep [("workflow", Value.str "w"), ("status", Value.str "success")]
        false "T" initState).revenue =
      [mkRevEntry "T" (Value.str "w") (Value.str "unspecified") 0 true] := by
  exact (C1_log_exactly_one_revenue
    [("workflow", Value.str "w"), ("status", Value.str "success")] "T"
    initState 0 (by decide) rfl).1

/-- C2 counterexample: with the claimed 6-second window, each stream
would admit exactly one of two same-key events 3 s apart.  The code
admits both flowxo events (the window is 2 s, and 3 ≥ 2), and it admits
both healing appends (there is no dedup gate on `MetricsLogger.log` at
all): two flowxo lines and two metrics data rows (header + 2 = 3
records) are written. -/
theorem C2_counterexample :
    (logFlowxoEvent "w" "a" "u" 3 "t1"
        (logFlowxoEvent "w" "a" "u" 0 "t0" initState)).flowxo.length = 2 ∧
    (logStep [("workflow", Value.str "w")] false "T"
        (logStep [("workflow", Value.str "w")] false "T"
          initState)).metrics.length = 3 := by
  constructor
  · have h1 : logFlowxoEvent "w" "a" "u" 0 "t0" initState =
        { initState with
            lastFlowxo := [("w_a_u", 0)]
            flowxo := [{ ts := "t0", workflow := "w", anomaly := "a",
                         userId := "u" }] } := rfl
    rw [h1]
    have h2 : logFlowxoEvent "w" "a" "u" 3 "t1"
        { initState with
            lastFlowxo := [("w_a_u", 0)]
            flowxo := [{ ts := "t0", workflow := "w", anomaly := "a",
                         userId := "u" }] } =
        if (3 : ℚ) - 0 < 2 then
          { initState with
              lastFlowxo := [("w_a_u", 0)]
              flowxo := [{ ts := "t0", workflow := "w", anomaly := "a",
                           userId := "u" }] }
        else flowxoAdmit "w" "a" "u" 3 "t1"
          { initState with
              lastFlowxo := [("w_a_u", 0)]
              flowxo := [{ ts := "t0", workflow := "w", anomaly := "a",
                           userId := "u" }] } := rfl
    rw [h2, if_neg (by norm_num)]
    rfl
  · rfl

/-- C2 amended: only the FlowxoNotification stream has a dedup gate,
and its window is 2 seconds (hard-coded), not 6; `MetricsLogger.log`
has no gate.  A flowxo call is admitted iff its key is unseen or the
elapsed time since the last admission is ≥ 2 s; a suppressed call
writes no line and leaves the cache untouched; an admitted call appends
exactly one line and stores the current timestamp under its key. -/
theorem C2_amended_flowxo_gate (w a u : String) (now : ℚ)
    (nowTs : String) (st : LoggerState) :
    (∀ t, alookup st.lastFlowxo (flowxoKey w a u) = some t →
      now - t < 2 → logFlowxoEvent w a u now nowTs st = st) ∧
    ((alookup st.lastFlowxo (flowxoKey w a u) = none ∨
      (∃ t, alookup st.lastFlowxo (flowxoKey w a u) = some t ∧
        ¬(now - t < 2))) →
      logFlowxoEvent w a u now nowTs st = flowxoAdmit w a u now nowTs st ∧
      (flowxoAdmit w a u now nowTs st).flowxo =
        st.flowxo ++ [{ ts := nowTs, workflow := w, anomaly := a,
                        userId := u }] ∧
      alookup (flowxoAdmit w a u now nowTs st).lastFlowxo
        (flowxoKey w a u) = some now) := by
  constructor
  · intro t ht hlt
    simp [logFlowxoEvent, ht, hlt]
  · rintro (h | ⟨t, ht, hge⟩)
    · exact ⟨by simp [logFlowxoEvent, h], rfl,
        alookup_aset_self st.lastFlowxo (flowxoKey w a u) now⟩
    · exact ⟨by simp [logFlowxoEvent, ht, hge], rfl,
        alookup_aset_self st.lastFlowxo (flowxoKey w a u) now⟩

/-- C2 witness: a same-key flowxo event 1 s after an admission is
suppressed (no line, no cache update). -/
theorem C2_witness :
    logFlowxoEvent "w" "a" "u" 1 "t1"
      { initState with lastFlowxo := [("w_a_u", 0)] } =
      { initState with lastFlowxo := [("w_a_u", 0)] } :=
  (C2_amended_flowxo_gate "w" "a" "u" 1 "t1"
    { initState with lastFlowxo := [("w_a_u", 0)] }).1 0 rfl (by norm_num)

/-- C3 counterexample: on a file whose first record is a corrupt
8-column header followed by one data row, `_ensure_file_integrity`
re-reads the WHOLE file headerlessly (`pd.read_csv(path, header=None)`)
and keeps the corrupt first record as a data row.  The claim's reading
— parse only the rows *after* the first record — would leave the file
as canonical header + 1 data row; the code leaves canonical header +
2 data rows. -/
theorem C3_counterexample :
    ensureFileIntegrity
        [[Value.str "h1", Value.str "h2", Value.str "h3", Value.str "h4",
          Value.str "h5", Value.str "h6", Value.str "h7", Value.str "h8"],
         [Value.str "t", Value.str "w", Value.str "a", Value.str "act",
          Value.str "ok", Value.str "1", Value.str "2", Value.str "3"]] =
      [headerRec,
       [Value.str "h1", Value.str "h2", Value.str "h3", Value.str "h4",
        Value.str "h5", Value.str "h6", Value.str "h7", Value.str "h8"],
       [Value.str "t", Value.str "w", Value.str "a", Value.str "act",
        Value.str "ok", Value.str "1", Value.str "2", Value.str "3"]] ∧
    ([headerRec,
      [Value.str "h1", Value.str "h2", Value.str "h3", Value.str "h4",
       Value.str "h5", Value.str "h6", Value.str "h7", Value.str "h8"],
      [Value.str "t", Value.str "w", Value.str "a", Value.str "act",
       Value.str "ok", Value.str "1", Value.str "2", Value.str "3"]] ≠
     [headerRec,
      [Value.str "t", Value.str "w", Value.str "a", Value.str "act",
       Value.str "ok", Value.str "1", Value.str "2", Value.str "3"]]) := by
  constructor
  · decide
  · decide

/-- C3 amended: `_ensure_file_integrity` on a file whose first record
differs from the canonical header re-parses ALL records headerlessly —
the mismatched first record included, so it is preserved as a data
row — and rewrites the file with the canonical header prepended;
afterwards the first record is the canonical header and no previously
written record is lost (each reappears, NaN-padded to the frame
width).  An absent or empty file gets the canonical header only, as
does one whose content fails to parse (or whose column count differs
from 8, which makes the rewrite itself raise). -/
theorem C3_ensure_integrity_amended (r : Rec) (rs : List Rec)
    (hne : r ≠ headerRec) :
    ensureFileIntegrity [] = [headerRec] ∧
    (parseHeaderless (r :: rs) = none →
      ensureFileIntegrity (r :: rs) = [headerRec]) ∧
    (∀ rows, parseHeaderless (r :: rs) = some rows →
      r.length ≠ headers.length →
      ensureFileIntegrity (r :: rs) = [headerRec]) ∧
    (r.length = headers.length →
      (∀ x ∈ rs, x.length ≤ r.length) →
      ensureFileIntegrity (r :: rs) =
        headerRec :: (r :: rs).map (padTo r.length) ∧
      ∀ x ∈ r :: rs,
        padTo r.length x ∈ ensureFileIntegrity (r :: rs)) := by
    refine ⟨rfl, ?_, ?_, ?_⟩
    · intro hp
      simp [ensureFileIntegrity, hne, hp, createNewFile]
    · intro rows hp hw
      simp [ensureFileIntegrity, hne, hp, hw, createNewFile]
    · intro hw hle
      have hall : (r :: rs).all (fun row => row.length ≤ r.length) = true := by
        rw [List.all_eq_true]
        intro x hx
        rcases List.mem_cons.mp hx with h | h
        · subst h; simp
        · exact decide_eq_true (hle x h)
      have hp : parseHeaderless (r :: rs) =
          some ((r :: rs).map (padTo r.length)) := by
        simp [parseHeaderless, hall]
      have he : ensureFileIntegrity (r :: rs) =
          headerRec :: (r :: rs).map (padTo r.length) := by
        simp [ensureFileIntegrity, hne, hp, hw]
      refine ⟨he, ?_⟩
      intro x hx
      rw [he]
      exact List.mem_cons_of_mem _ (List.mem_map_of_mem _ hx)

/-- C3 witness: repairing the concrete drifted file of the
counterexample restores the canonical header and keeps both original
records. -/
theorem C3_witness :
    ensureFileIntegrity
        [[Value.str "h1", Value.str "h2", Value.str "h3", Value.str "h4",
          Value.str "h5", Value.str "h6", Value.str "h7", Value.str "h8"],
         [Value.str "t", Value.str "w", Value.str "a", Value.str "act",
          Value.str "ok", Value.str "1", Value.str "2", Value.str "3"]] =
      headerRec ::
        ([[Value.str "h1", Value.str "h2", Value.str "h3", Value.str "h4",
           Value.str "h5", Value.str "h6", Value.str "h7", Value.str "h8"],
          [Value.str "t", Value.str "w", Value.str "a", Value.str "act",
           Value.str "ok", Value.str "1", Value.str "2", Value.str "3"]].map
          (padTo 8)) :=
  ((C3_ensure_integrity_amended
    [Value.str "h1", Value.str "h2", Value.str "h3", Value.str "h4",
     Value.str "h5", Value.str "h6", Value.str "h7", Value.str "h8"]
    [[Value.str "t", Value.str "w", Value.str "a", Value.str "act",
      Value.str "ok", Value.str "1", Value.str "2", Value.str "3"]]
    (by decide)).2.2.2 (by decide) (by decide)).1

/-- C4: `MetricsLogger.log` is total — the `except` handler means it
never raises to its caller — and on an I/O exception during the append
it recreates the metrics file with the canonical header only (leaving
the file writable for the next event); no revenue line is written for
the lost event. -/
theorem C4_append_failure_recreates (row : Row) (nowTs : String)
    (st : LoggerState) :
    (logStep row true nowTs st).metrics = [headerRec] ∧
    (logStep row true nowTs st).revenue = st.revenue := by
  simp [logStep, createNewFile]

/-- C5: `MetricsLogger.log_revenue` prices every entry at
`round(0.05 * (1 + recovery_pct/100), 4)` and marks it `"success"`
exactly when the success flag holds, `"partial"` otherwise; at
`recovery_pct = 92.5`, `success = True` the amount is `0.0963` and the
status `"success"`. -/
theorem C5_revenue_pricing :
    (∀ (ts : String) (wf an : Value) (pct : ℚ) (success : Bool),
      (mkRevEntry ts wf an pct success).amount =
        pyRound (basePrice * (1 + pct / 100)) 4 ∧
      (mkRevEntry ts wf an pct success).status =
        (if success then "success" else "partial") ∧
      ((mkRevEntry ts wf an pct success).status = "success" ↔
        success = true)) ∧
    (mkRevEntry "2025-01-01 00:00:00" (Value.str "order_processing")
        (Value.str "queue_pressure") (185 / 2) true).amount = 963 / 10000 ∧
    (mkRevEntry "2025-01-01 00:00:00" (Value.str "order_processing")
        (Value.str "queue_pressure") (185 / 2) true).status = "success" := by
  refine ⟨fun ts wf an pct success => ⟨rfl, rfl, ?_⟩, ?_, rfl⟩
  · cases success <;> simp [mkRevEntry]
  · show pyRound (basePrice * (1 + 185 / 2 / 100)) 4 = 963 / 10000
    norm_num [basePrice, pyRound]

/-- C6: with no credential configured (`PAYWALLS_KEY` unset or empty),
`bill_healing_event` returns status `"simulated"` and mode `"local"`,
appends exactly one line to the flat revenue log, and returns without
attempting the remote call — the result does not depend on what the
remote endpoint would have done. -/
theorem C6_no_credential_simulated (key : Option String)
    (remote : RemoteOutcome) (userId healType : String) (cost : ℚ)
    (ts : String) (log : List BillLine) (h : hasKey key = false) :
    (billHealingEvent key remote userId healType cost ts log).1.status =
      "simulated" ∧
    (billHealingEvent key remote userId healType cost ts log).1.mode =
      some "local" ∧
    (billHealingEvent key remote userId healType cost ts log).2 =
      log ++ [{ ts := ts, user := userId, healType := healType,
                cost := cost, status := "simulated", mode := none }] ∧
    (∀ remote', billHealingEvent key remote' userId healType cost ts log =
      billHealingEvent key remote userId healType cost ts log) := by
  refine ⟨?_, ?_, ?_, ?_⟩ <;>
    simp [billHealingEvent, h, baseResult]

/-- C6 witness: a concrete credential-less call is simulated locally. -/
theorem C6_witness :
    (billHealingEvent none (RemoteOutcome.exc "connection refused") "user_1"
        "queue_fix" (1 / 20) "T" []).1.status = "simulated" :=
  (C6_no_credential_simulated none (RemoteOutcome.exc "connection refused")
    "user_1" "queue_fix" (1 / 20) "T" [] rfl).1

/-- C7: with a credential configured, a failing remote call never
raises and always appends exactly one fallback line: a non-2xx HTTP
response yields status `"fallback_logged"` (line mode `"real-failed"`),
a raised transport exception yields status `"failed"` with mode
`"fallback"`; neither status is `"success"`. -/
theorem C7_remote_failure_fallback (key : Option String)
    (userId healType : String) (cost : ℚ) (ts : String)
    (log : List BillLine) (hk : hasKey key = true) :
    (∀ code body, code ≠ 200 → code ≠ 201 →
      (billHealingEvent key (RemoteOutcome.response code body) userId
        healType cost ts log).1.status = "fallback_logged" ∧
      (billHealingEvent key (RemoteOutcome.response code body) userId
        healType cost ts log).1.status ≠ "success" ∧
      (billHealingEvent key (RemoteOutcome.response code body) userId
        healType cost ts log).2 =
        log ++ [{ ts := ts, user := userId, healType := healType,
                  cost := cost, status := "fallback",
                  mode := some "real-failed" }]) ∧
    (∀ msg,
      (billHealingEvent key (RemoteOutcome.exc msg) userId healType cost
        ts log).1.status = "failed" ∧
      (billHealingEvent key (RemoteOutcome.exc msg) userId healType cost
        ts log).1.mode = some "fallback" ∧
      (billHealingEvent key (RemoteOutcome.exc msg) userId healType cost
        ts log).1.status ≠ "success" ∧
      (billHealingEvent key (RemoteOutcome.exc msg) userId healType cost
        ts log).2 =
        log ++ [{ ts := ts, user := userId, healType := healType,
                  cost := cost, status := "exception",
                  mode := some "fallback" }]) := by
  constructor
  · intro code body h200 h201
    refine ⟨?_, ?_, ?_⟩ <;>
      simp [billHealingEvent, hk, h200, h201, baseResult]
  · intro msg
    refine ⟨?_, ?_, ?_, ?_⟩ <;>
      simp [billHealingEvent, hk, baseResult]

/-- C7 witness: a concrete HTTP 500 rejection is logged as fallback and
returned as a non-raising `"fallback_logged"` result. -/
theorem C7_witness :
    (billHealingEvent (some "sk-test") (RemoteOutcome.response 500 "err")
        "user_1" "queue_fix" (1 / 20) "T" []).1.status =
      "fallback_logged" :=
  ((C7_remote_failure_fallback (some "sk-test") "user_1" "queue_fix"
    (1 / 20) "T" [] rfl).1 500 "err" (by decide) (by decide)).1

/-- C8 counterexample: a flat revenue log holding the single line
`"2025-01-01 | wf | an | $0.0963 | success"` sums to `0.0963`, but
`_compute_total_revenue` returns `round(total, 3) = 0.096` — the
reported total does not equal the sum of the parsed amounts. -/
theorem C8_counterexample :
    computeTotalRevenue ["2025-01-01 | wf | an | $0.0963 | success"] =
      96 / 1000 ∧
    claimedTotalRevenue ["2025-01-01 | wf | an | $0.0963 | success"] =
      963 / 10000 ∧
    (96 / 1000 : ℚ) ≠ 963 / 10000 := by
  refine ⟨?_, ?_, by norm_num⟩
  · have h : computeTotalRevenue
        ["2025-01-01 | wf | an | $0.0963 | success"] =
        pyRound ((0 : ℚ) + ((digitsVal ['0'] : ℚ) +
          (digitsVal ['0', '9', '6', '3'] : ℚ) / 10 ^ 4)) 3 := rfl
    have d0 : digitsVal ['0'] = 0 := by decide
    have d963 : digitsVal ['0', '9', '6', '3'] = 963 := by decide
    rw [h, d0, d963]; norm_num [pyRound]
  · have h : claimedTotalRevenue
        ["2025-01-01 | wf | an | $0.0963 | success"] =
        ((digitsVal ['0'] : ℚ) +
          (digitsVal ['0', '9', '6', '3'] : ℚ) / 10 ^ 4) + 0 := rfl
    have d0 : digitsVal ['0'] = 0 := by decide
    have d963 : digitsVal ['0', '9', '6', '3'] = 963 := by decide
    rw [h, d0, d963]; norm_num

/-- C8 amended: for every content of the flat revenue log,
`_compute_total_revenue` equals the sum of the parsed per-line dollar
amounts rounded to 3 decimal places (and, being a pure function of the
file's lines, it is recomputed from the file on every call — no cached
revenue state exists). -/
theorem C8_total_revenue_amended (lines : List String) :
    computeTotalRevenue lines = pyRound (claimedTotalRevenue lines) 3 := by
  unfold computeTotalRevenue claimedTotalRevenue
  rw [revenue_foldl_eq, zero_add]

/-- C9: the reporting accessors are total (never raise): `summary`
returns the zero-valued stats object on a missing/empty metrics file
(also on a header-only one) and whenever the header-ful read of the
kept file fails to parse (a ragged data row, wider than the first data
row, raises `ParserError`), and `read_billing_history` returns `[]`
when its backing file is missing or the read raises. -/
theorem C9_reporting_accessors_tolerant :
    (∀ revLines, summaryOf [] revLines = emptySummary) ∧
    (∀ revLines, summaryOf [headerRec] revLines = emptySummary) ∧
    (∀ metrics revLines,
      readWithHeader (ensureFileIntegrity metrics).tail = none →
      summaryOf metrics revLines = emptySummary) ∧
    (∀ n, readBillingHistory ReadOutcome.missing n = []) ∧
    (∀ n, readBillingHistory ReadOutcome.ioError n = []) := by
  refine ⟨fun _ => rfl, fun _ => rfl, ?_, fun _ => rfl, fun _ => rfl⟩
  intro metrics revLines h
  simp [summaryOf, h]

/-- C9 witness: a metrics file whose data is ragged — an 8-cell record
followed by a 9-cell one — makes the header-ful read raise
(`Expected 8 fields, saw 9`), and `summary` returns the zero-valued
stats. -/
theorem C9_witness :
    summaryOf
        [headerRec,
         [Value.str "t", Value.str "w", Value.str "a", Value.str "n",
          Value.str "s", Value.str "1", Value.str "2", Value.str "3"],
         [Value.str "t", Value.str "w", Value.str "a", Value.str "n",
          Value.str "s", Value.str "1", Value.str "2", Value.str "3",
          Value.str "extra"]] [] = emptySummary :=
  C9_reporting_accessors_tolerant.2.2.1
    [headerRec,
     [Value.str "t", Value.str "w", Value.str "a", Value.str "n",
      Value.str "s", Value.str "1", Value.str "2", Value.str "3"],
     [Value.str "t", Value.str "w", Value.str "a", Value.str "n",
      Value.str "s", Value.str "1", Value.str "2", Value.str "3",
      Value.str "extra"]] [] (by decide)

/-- C10: a row holding any key outside the canonical 8-field schema
makes `DictWriter.writerow` raise `ValueError`; `log` swallows the
exception and recreates the metrics file with the canonical header
only, erasing every previously appended data row, while no revenue
line is written and the caller sees no error. -/
theorem C10_extra_key_wipes_file (row : Row) (k : String) (v : Value)
    (nowTs : String) (st : LoggerState)
    (hm : (k, v) ∈ row) (hk : headers.contains k = false) :
    (logStep row false nowTs st).metrics = [headerRec] ∧
    (logStep row false nowTs st).revenue = st.revenue := by
  have hts : k ≠ "ts" := fun h => by
    subst h; exact absurd hk (by decide)
  have hmem := mem_prepRow hm hts nowTs
  have hko := rowKeysOk_eq_false hmem hk
  simp [logStep, hko, createNewFile]

/-- C10 witness: one row with the stray key `"evil"` empties a metrics
file that held a data row. -/
theorem C10_witness :
    (logStep [("evil", Value.str "x")] false "T"
        { initState with
            metrics :=
              [headerRec,
               [Value.str "t", Value.str "w", Value.str "a", Value.str "n",
                Value.str "s", Value.str "1", Value.str "2",
                Value.str "3"]] }).metrics = [headerRec] :=
  (C10_extra_key_wipes_file [("evil", Value.str "x")] "evil"
    (Value.str "x") "T"
    { initState with
        metrics :=
          [headerRec,
           [Value.str "t", Value.str "w", Value.str "a", Value.str "n",
            Value.str "s", Value.str "1", Value.str "2",
            Value.str "3"]] }
    (by decide) (by decide)).1

end Healer

